import Mathlib

/-!
Shallow embedding of the frame streaming server
(`src/PythonStreamServer.cpp`, `include/PythonStreamServer.h`).

Modelling conventions:
* machine integers (`uint32_t`, `uint64_t`) are `Nat` reduced modulo `2^32`
  resp. `2^64` at the points where the C++ code can overflow;
* raw memory buffers are `List Nat` (one entry per byte);
* a `std::shared_ptr<uint8_t>` plane buffer is `Option (List Nat)`
  (`none` models a null pointer);
* the 48-byte `FrameHeader` struct written by `send` is laid out with no
  padding (`uint64_t` at offset 0 followed by ten `uint32_t`), in the
  platform's native byte order, modelled here as little-endian;
* socket `send` results are an oracle: a list of `Int` return values
  consumed one per `send` call (`-1` models an error return).
-/

namespace NuwaStream

/-- Little-endian byte encoding of `n` on `w` bytes (native order of the
platform the server runs on, as written by `send(&header, 48)`). -/
def leBytes : Nat → Nat → List Nat
  | 0, _ => []
  | w + 1, n => n % 256 :: leBytes w (n / 256)

/-- Little-endian byte decoding, inverse direction of `leBytes`. -/
def leVal : List Nat → Nat
  | [] => 0
  | b :: bs => b + 256 * leVal bs

theorem leBytes_length (w n : Nat) : (leBytes w n).length = w := by
  induction w generalizing n with
  | zero => rfl
  | succ w ih => simp [leBytes, ih]

theorem leVal_leBytes (w n : Nat) : leVal (leBytes w n) = n % 256 ^ w := by
  induction w generalizing n with
  | zero => simp [leBytes, leVal, Nat.mod_one]
  | succ w ih =>
    rw [leBytes, leVal, ih, pow_succ', Nat.mod_mul]

/-- `StreamFrame` (include/PythonStreamServer.h:26-47). -/
structure StreamFrame where
  timestamp : Nat
  frame_id : Nat
  depth_width : Nat
  depth_height : Nat
  depth_size : Nat
  depth_data : Option (List Nat)
  rgb_width : Nat
  rgb_height : Nat
  rgb_size : Nat
  rgb_data : Option (List Nat)
  ir_width : Nat
  ir_height : Nat
  ir_size : Nat
  ir_data : Option (List Nat)
  deriving DecidableEq, Repr, Inhabited

/-- One image plane of the driver-native `AS_SDK_Data_s` record:
`(width, height, size, data pointer)`.  A null data pointer is `none`. -/
structure RawImg where
  width : Nat
  height : Nat
  size : Nat
  data : Option (List Nat)
  deriving DecidableEq, Repr

/-- The driver-native frame record `AS_SDK_Data_s` as used by
`convertToStreamFrame` (only the depth/rgb/ir planes are read). -/
structure RawData where
  depthImg : RawImg
  rgbImg : RawImg
  irImg : RawImg
  deriving DecidableEq, Repr

/-- Bytes behind a raw plane pointer, as read by
`memcpy(dst, src.data, size)`: the first `size` bytes of the allocation. -/
def rawPlaneBytes (img : RawImg) : List Nat :=
  (img.data.getD []).take img.size

/-- One plane branch of `convertToStreamFrame`
(PythonStreamServer.cpp:252-283): if the raw plane's `size > 0`, allocate
(`new uint8_t[size]`, which throws `std::bad_alloc` on failure — modelled
by the `alloc` oracle returning `false`) and `memcpy` the plane bytes;
otherwise set width/height/size to 0 and leave the buffer pointer null.
Returns `(width, height, size, buffer)` or the propagated exception. -/
def convertPlane (alloc : Nat → Bool) (img : RawImg) :
    Except Unit (Nat × Nat × Nat × Option (List Nat)) :=
  if 0 < img.size then
    if alloc img.size then
      .ok (img.width, img.height, img.size, some (rawPlaneBytes img))
    else
      .error ()
  else
    .ok (0, 0, 0, none)

/-- `PythonStreamServer::convertToStreamFrame`
(PythonStreamServer.cpp:245-286).  `ts` is the microsecond reading of the
clock at the call (stored into the `uint64_t` field), `c` the current
value of the `uint32_t` member `m_frame_counter`; the frame id is the
pre-increment `++m_frame_counter`.  On an allocation failure the exception
propagates (`.error`) with the counter already incremented. -/
def convertToStreamFrame (alloc : Nat → Bool) (ts : Nat) (raw : RawData)
    (c : Nat) : Except Nat (StreamFrame × Nat) :=
  let c' := (c + 1) % 2 ^ 32
  match convertPlane alloc raw.depthImg with
  | .error _ => .error c'
  | .ok (dw, dh, ds, dd) =>
    match convertPlane alloc raw.rgbImg with
    | .error _ => .error c'
    | .ok (rw, rh, rs, rd) =>
      match convertPlane alloc raw.irImg with
      | .error _ => .error c'
      | .ok (iw, ih, isz, idt) =>
        .ok ({ timestamp := ts % 2 ^ 64, frame_id := c',
               depth_width := dw, depth_height := dh, depth_size := ds,
               depth_data := dd,
               rgb_width := rw, rgb_height := rh, rgb_size := rs,
               rgb_data := rd,
               ir_width := iw, ir_height := ih, ir_size := isz,
               ir_data := idt }, c')

/-- The 48-byte `FrameHeader` struct of `sendFrameToClient`
(PythonStreamServer.cpp:178-202) as the byte sequence written by
`send(&header, sizeof(header))`: `uint64_t timestamp` followed by ten
`uint32_t` fields, no padding, native (little-endian) byte order. -/
def headerBytes (f : StreamFrame) : List Nat :=
  leBytes 8 f.timestamp ++ leBytes 4 f.frame_id ++
  leBytes 4 f.depth_width ++ leBytes 4 f.depth_height ++
  leBytes 4 f.depth_size ++
  leBytes 4 f.rgb_width ++ leBytes 4 f.rgb_height ++ leBytes 4 f.rgb_size ++
  leBytes 4 f.ir_width ++ leBytes 4 f.ir_height ++ leBytes 4 f.ir_size

/-- Bytes written for one plane by `sendFrameToClient`: `size` bytes from
the buffer, and only when `size > 0` and the buffer pointer is non-null
(PythonStreamServer.cpp:211-232). -/
def sentPlaneBytes (sz : Nat) (d : Option (List Nat)) : List Nat :=
  match d with
  | none => []
  | some b => if 0 < sz then b.take sz else []

/-- All bytes put on the wire for one frame by a fully successful
`sendFrameToClient` call: header, then depth, then RGB, then IR. -/
def serializeFrame (f : StreamFrame) : List Nat :=
  headerBytes f ++
  sentPlaneBytes f.depth_size f.depth_data ++
  sentPlaneBytes f.rgb_size f.rgb_data ++
  sentPlaneBytes f.ir_size f.ir_data

/-- Little-endian `uint64` field at byte offset `off` of a message. -/
def field64 (bs : List Nat) (off : Nat) : Nat :=
  leVal ((bs.drop off).take 8)

/-- Little-endian `uint32` field at byte offset `off` of a message. -/
def field32 (bs : List Nat) (off : Nat) : Nat :=
  leVal ((bs.drop off).take 4)

/-- A frame as reconstructed by a client following the documented wire
layout. -/
structure ParsedFrame where
  timestamp : Nat
  frame_id : Nat
  depth_width : Nat
  depth_height : Nat
  depth_size : Nat
  rgb_width : Nat
  rgb_height : Nat
  rgb_size : Nat
  ir_width : Nat
  ir_height : Nat
  ir_size : Nat
  depth_bytes : List Nat
  rgb_bytes : List Nat
  ir_bytes : List Nat
  deriving DecidableEq, Repr

/-- The documented parse of one wire message: a 48-byte header with fields
at fixed offsets (timestamp 0, frame_id 8, depth w/h/size 12/16/20,
rgb w/h/size 24/28/32, ir w/h/size 36/40/44), followed by exactly
`depth_size` then `rgb_size` then `ir_size` payload bytes. -/
def parseFrame (bs : List Nat) : Option ParsedFrame :=
  if bs.length < 48 then none
  else if bs.length = 48 + field32 bs 20 + field32 bs 32 + field32 bs 44 then
    some { timestamp := field64 bs 0, frame_id := field32 bs 8,
           depth_width := field32 bs 12, depth_height := field32 bs 16,
           depth_size := field32 bs 20,
           rgb_width := field32 bs 24, rgb_height := field32 bs 28,
           rgb_size := field32 bs 32,
           ir_width := field32 bs 36, ir_height := field32 bs 40,
           ir_size := field32 bs 44,
           depth_bytes := (bs.drop 48).take (field32 bs 20),
           rgb_bytes := (bs.drop (48 + field32 bs 20)).take (field32 bs 32),
           ir_bytes := (bs.drop (48 + field32 bs 20 + field32 bs 32)).take
             (field32 bs 44) }
  else none

/-- Well-formedness of one plane of a `StreamFrame` as established by
`convertToStreamFrame`: 32-bit fields in range, buffer present exactly
when `size > 0`, and a present buffer holding exactly `size` bytes. -/
def PlaneWF (w h sz : Nat) (d : Option (List Nat)) : Prop :=
  w < 2 ^ 32 ∧ h < 2 ^ 32 ∧ sz < 2 ^ 32 ∧
  (0 < sz ↔ d.isSome) ∧ (∀ b, d = some b → b.length = sz)

/-- Well-formedness of a `StreamFrame`: every machine-integer field within
its C++ type's range and every plane well-formed. -/
def FrameWF (f : StreamFrame) : Prop :=
  f.timestamp < 2 ^ 64 ∧ f.frame_id < 2 ^ 32 ∧
  PlaneWF f.depth_width f.depth_height f.depth_size f.depth_data ∧
  PlaneWF f.rgb_width f.rgb_height f.rgb_size f.rgb_data ∧
  PlaneWF f.ir_width f.ir_height f.ir_size f.ir_data

/-! Slicing lemmas used to read fields back out of a serialized message. -/

theorem field32_skip (c rest : List Nat) (off k : Nat) (h : c.length = k) :
    field32 (c ++ rest) (k + off) = field32 rest off := by
  subst h
  simp [field32, List.drop_append]

theorem field32_here (n : Nat) (rest : List Nat) :
    field32 (leBytes 4 n ++ rest) 0 = n % 2 ^ 32 := by
  have h : (leBytes 4 n ++ rest).take 4 = leBytes 4 n :=
    List.take_left' (leBytes_length 4 n)
  have h2 : (256 : Nat) ^ 4 = 2 ^ 32 := by norm_num
  simp [field32, h, leVal_leBytes, h2]

theorem field64_here (n : Nat) (rest : List Nat) :
    field64 (leBytes 8 n ++ rest) 0 = n % 2 ^ 64 := by
  have h : (leBytes 8 n ++ rest).take 8 = leBytes 8 n :=
    List.take_left' (leBytes_length 8 n)
  have h2 : (256 : Nat) ^ 8 = 2 ^ 64 := by norm_num
  simp [field64, h, leVal_leBytes, h2]

/-- `serializeFrame` written as a fully right-associated append chain. -/
theorem serializeFrame_chain (f : StreamFrame) :
    serializeFrame f =
      leBytes 8 f.timestamp ++ (leBytes 4 f.frame_id ++
      (leBytes 4 f.depth_width ++ (leBytes 4 f.depth_height ++
      (leBytes 4 f.depth_size ++
      (leBytes 4 f.rgb_width ++ (leBytes 4 f.rgb_height ++
      (leBytes 4 f.rgb_size ++
      (leBytes 4 f.ir_width ++ (leBytes 4 f.ir_height ++
      (leBytes 4 f.ir_size ++
      (sentPlaneBytes f.depth_size f.depth_data ++
      (sentPlaneBytes f.rgb_size f.rgb_data ++
       sentPlaneBytes f.ir_size f.ir_data)))))))))))) := by
  simp [serializeFrame, headerBytes, List.append_assoc]

theorem headerBytes_length (f : StreamFrame) : (headerBytes f).length = 48 := by
  simp [headerBytes, leBytes_length]

/-- A well-formed plane is sent in full: the bytes on the wire are exactly
the owned buffer (empty when the plane is absent). -/
theorem sentPlaneBytes_of_wf {w h sz : Nat} {d : Option (List Nat)}
    (hp : PlaneWF w h sz d) : sentPlaneBytes sz d = d.getD [] := by
  obtain ⟨-, -, -, hiff, hlen⟩ := hp
  cases d with
  | none => rfl
  | some b =>
    have hpos : 0 < sz := hiff.mpr (by simp)
    have hb : b.length = sz := hlen b rfl
    simp [sentPlaneBytes, hpos, List.take_of_length_le (le_of_eq hb)]

theorem sentPlaneBytes_length_of_wf {w h sz : Nat} {d : Option (List Nat)}
    (hp : PlaneWF w h sz d) : (sentPlaneBytes sz d).length = sz := by
  rw [sentPlaneBytes_of_wf hp]
  obtain ⟨-, -, -, hiff, hlen⟩ := hp
  cases d with
  | none =>
    have : ¬ 0 < sz := by simp [hiff]
    simp [Nat.eq_zero_of_not_pos this]
  | some b => simpa using hlen b rfl

/-! Extraction of every header field at its documented byte offset. -/

theorem serialize_field_timestamp (f : StreamFrame) :
    field64 (serializeFrame f) 0 = f.timestamp % 2 ^ 64 := by
  rw [serializeFrame_chain]
  exact field64_here _ _

theorem serialize_field_frame_id (f : StreamFrame) :
    field32 (serializeFrame f) 8 = f.frame_id % 2 ^ 32 := by
  rw [serializeFrame_chain, show (8 : Nat) = 8 + 0 from rfl,
    field32_skip _ _ _ _ (leBytes_length 8 _)]
  exact field32_here _ _

theorem serialize_field_depth_width (f : StreamFrame) :
    field32 (serializeFrame f) 12 = f.depth_width % 2 ^ 32 := by
  rw [serializeFrame_chain, show (12 : Nat) = 8 + 4 from rfl,
    field32_skip _ _ _ _ (leBytes_length 8 _),
    show (4 : Nat) = 4 + 0 from rfl,
    field32_skip _ _ _ _ (leBytes_length 4 _)]
  exact field32_here _ _

theorem serialize_field_depth_height (f : StreamFrame) :
    field32 (serializeFrame f) 16 = f.depth_height % 2 ^ 32 := by
  rw [serializeFrame_chain, show (16 : Nat) = 8 + 8 from rfl,
    field32_skip _ _ _ _ (leBytes_length 8 _),
    show (8 : Nat) = 4 + 4 from rfl,
    field32_skip _ _ _ _ (leBytes_length 4 _),
    show (4 : Nat) = 4 + 0 from rfl,
    field32_skip _ _ _ _ (leBytes_length 4 _)]
  exact field32_here _ _

theorem serialize_field_depth_size (f : StreamFrame) :
    field32 (serializeFrame f) 20 = f.depth_size % 2 ^ 32 := by
  rw [serializeFrame_chain, show (20 : Nat) = 8 + 12 from rfl,
    field32_skip _ _ _ _ (leBytes_length 8 _),
    show (12 : Nat) = 4 + 8 from rfl,
    field32_skip _ _ _ _ (leBytes_length 4 _),
    show (8 : Nat) = 4 + 4 from rfl,
    field32_skip _ _ _ _ (leBytes_length 4 _),
    show (4 : Nat) = 4 + 0 from rfl,
    field32_skip _ _ _ _ (leBytes_length 4 _)]
  exact field32_here _ _

theorem serialize_field_rgb_width (f : StreamFrame) :
    field32 (serializeFrame f) 24 = f.rgb_width % 2 ^ 32 := by
  rw [serializeFrame_chain, show (24 : Nat) = 8 + 16 from rfl,
    field32_skip _ _ _ _ (leBytes_length 8 _),
    show (16 : Nat) = 4 + 12 from rfl,
    field32_skip _ _ _ _ (leBytes_length 4 _),
    show (12 : Nat) = 4 + 8 from rfl,
    field32_skip _ _ _ _ (leBytes_length 4 _),
    show (8 : Nat) = 4 + 4 from rfl,
    field32_skip _ _ _ _ (leBytes_length 4 _),
    show (4 : Nat) = 4 + 0 from rfl,
    field32_skip _ _ _ _ (leBytes_length 4 _)]
  exact field32_here _ _

theorem serialize_field_rgb_height (f : StreamFrame) :
    field32 (serializeFrame f) 28 = f.rgb_height % 2 ^ 32 := by
  rw [serializeFrame_chain, show (28 : Nat) = 8 + 20 from rfl,
    field32_skip _ _ _ _ (leBytes_length 8 _),
    show (20 : Nat) = 4 + 16 from rfl,
    field32_skip _ _ _ _ (leBytes_length 4 _),
    show (16 : Nat) = 4 + 12 from rfl,
    field32_skip _ _ _ _ (leBytes_length 4 _),
    show (12 : Nat) = 4 + 8 from rfl,
    field32_skip _ _ _ _ (leBytes_length 4 _),
    show (8 : Nat) = 4 + 4 from rfl,
    field32_skip _ _ _ _ (leBytes_length 4 _),
    show (4 : Nat) = 4 + 0 from rfl,
    field32_skip _ _ _ _ (leBytes_length 4 _)]
  exact field32_here _ _

theorem serialize_field_rgb_size (f : StreamFrame) :
    field32 (serializeFrame f) 32 = f.rgb_size % 2 ^ 32 := by
  rw [serializeFrame_chain, show (32 : Nat) = 8 + 24 from rfl,
    field32_skip _ _ _ _ (leBytes_length 8 _),
    show (24 : Nat) = 4 + 20 from rfl,
    field32_skip _ _ _ _ (leBytes_length 4 _),
    show (20 : Nat) = 4 + 16 from rfl,
    field32_skip _ _ _ _ (leBytes_length 4 _),
    show (16 : Nat) = 4 + 12 from rfl,
    field32_skip _ _ _ _ (leBytes_length 4 _),
    show (12 : Nat) = 4 + 8 from rfl,
    field32_skip _ _ _ _ (leBytes_length 4 _),
    show (8 : Nat) = 4 + 4 from rfl,
    field32_skip _ _ _ _ (leBytes_length 4 _),
    show (4 : Nat) = 4 + 0 from rfl,
    field32_skip _ _ _ _ (leBytes_length 4 _)]
  exact field32_here _ _

theorem serialize_field_ir_width (f : StreamFrame) :
    field32 (serializeFrame f) 36 = f.ir_width % 2 ^ 32 := by
  rw [serializeFrame_chain, show (36 : Nat) = 8 + 28 from rfl,
    field32_skip _ _ _ _ (leBytes_length 8 _),
    show (28 : Nat) = 4 + 24 from rfl,
    field32_skip _ _ _ _ (leBytes_length 4 _),
    show (24 : Nat) = 4 + 20 from rfl,
    field32_skip _ _ _ _ (leBytes_length 4 _),
    show (20 : Nat) = 4 + 16 from rfl,
    field32_skip _ _ _ _ (leBytes_length 4 _),
    show (16 : Nat) = 4 + 12 from rfl,
    field32_skip _ _ _ _ (leBytes_length 4 _),
    show (12 : Nat) = 4 + 8 from rfl,
    field32_skip _ _ _ _ (leBytes_length 4 _),
    show (8 : Nat) = 4 + 4 from rfl,
    field32_skip _ _ _ _ (leBytes_length 4 _),
    show (4 : Nat) = 4 + 0 from rfl,
    field32_skip _ _ _ _ (leBytes_length 4 _)]
  exact field32_here _ _

theorem serialize_field_ir_height (f : StreamFrame) :
    field32 (serializeFrame f) 40 = f.ir_height % 2 ^ 32 := by
  rw [serializeFrame_chain, show (40 : Nat) = 8 + 32 from rfl,
    field32_skip _ _ _ _ (leBytes_length 8 _),
    show (32 : Nat) = 4 + 28 from rfl,
    field32_skip _ _ _ _ (leBytes_length 4 _),
    show (28 : Nat) = 4 + 24 from rfl,
    field32_skip _ _ _ _ (leBytes_length 4 _),
    show (24 : Nat) = 4 + 20 from rfl,
    field32_skip _ _ _ _ (leBytes_length 4 _),
    show (20 : Nat) = 4 + 16 from rfl,
    field32_skip _ _ _ _ (leBytes_length 4 _),
    show (16 : Nat) = 4 + 12 from rfl,
    field32_skip _ _ _ _ (leBytes_length 4 _),
    show (12 : Nat) = 4 + 8 from rfl,
    field32_skip _ _ _ _ (leBytes_length 4 _),
    show (8 : Nat) = 4 + 4 from rfl,
    field32_skip _ _ _ _ (leBytes_length 4 _),
    show (4 : Nat) = 4 + 0 from rfl,
    field32_skip _ _ _ _ (leBytes_length 4 _)]
  exact field32_here _ _

theorem serialize_field_ir_size (f : StreamFrame) :
    field32 (serializeFrame f) 44 = f.ir_size % 2 ^ 32 := by
  rw [serializeFrame_chain, show (44 : Nat) = 8 + 36 from rfl,
    field32_skip _ _ _ _ (leBytes_length 8 _),
    show (36 : Nat) = 4 + 32 from rfl,
    field32_skip _ _ _ _ (leBytes_length 4 _),
    show (32 : Nat) = 4 + 28 from rfl,
    field32_skip _ _ _ _ (leBytes_length 4 _),
    show (28 : Nat) = 4 + 24 from rfl,
    field32_skip _ _ _ _ (leBytes_length 4 _),
    show (24 : Nat) = 4 + 20 from rfl,
    field32_skip _ _ _ _ (leBytes_length 4 _),
    show (20 : Nat) = 4 + 16 from rfl,
    field32_skip _ _ _ _ (leBytes_length 4 _),
    show (16 : Nat) = 4 + 12 from rfl,
    field32_skip _ _ _ _ (leBytes_length 4 _),
    show (12 : Nat) = 4 + 8 from rfl,
    field32_skip _ _ _ _ (leBytes_length 4 _),
    show (8 : Nat) = 4 + 4 from rfl,
    field32_skip _ _ _ _ (leBytes_length 4 _),
    show (4 : Nat) = 4 + 0 from rfl,
    field32_skip _ _ _ _ (leBytes_length 4 _)]
  exact field32_here _ _

/-- The payload begins right after the 48-byte header. -/
theorem serializeFrame_drop48 (f : StreamFrame) :
    (serializeFrame f).drop 48 =
      sentPlaneBytes f.depth_size f.depth_data ++
      (sentPlaneBytes f.rgb_size f.rgb_data ++
       sentPlaneBytes f.ir_size f.ir_data) := by
  have h : serializeFrame f =
      headerBytes f ++
      (sentPlaneBytes f.depth_size f.depth_data ++
       (sentPlaneBytes f.rgb_size f.rgb_data ++
        sentPlaneBytes f.ir_size f.ir_data)) := by
    simp [serializeFrame, List.append_assoc]
  rw [h, List.drop_left' (headerBytes_length f)]

theorem serializeFrame_length_of_wf (f : StreamFrame) (hf : FrameWF f) :
    (serializeFrame f).length =
      48 + (f.depth_size + (f.rgb_size + f.ir_size)) := by
  obtain ⟨-, -, hd, hr, hi⟩ := hf
  simp [serializeFrame, headerBytes_length, sentPlaneBytes_length_of_wf hd,
    sentPlaneBytes_length_of_wf hr, sentPlaneBytes_length_of_wf hi,
    Nat.add_assoc]

/-- Round-trip: parsing the bytes of a fully successful
`sendFrameToClient` per the documented wire layout reconstructs every
header field and every plane byte of a well-formed frame. -/
theorem parseFrame_serializeFrame (f : StreamFrame) (hf : FrameWF f) :
    parseFrame (serializeFrame f) =
      some { timestamp := f.timestamp, frame_id := f.frame_id,
             depth_width := f.depth_width, depth_height := f.depth_height,
             depth_size := f.depth_size,
             rgb_width := f.rgb_width, rgb_height := f.rgb_height,
             rgb_size := f.rgb_size,
             ir_width := f.ir_width, ir_height := f.ir_height,
             ir_size := f.ir_size,
             depth_bytes := f.depth_data.getD [],
             rgb_bytes := f.rgb_data.getD [],
             ir_bytes := f.ir_data.getD [] } := by
  obtain ⟨hts, hfid, hd, hr, hi⟩ := hf
  have hdsz : field32 (serializeFrame f) 20 = f.depth_size := by
    rw [serialize_field_depth_size]; exact Nat.mod_eq_of_lt hd.2.2.1
  have hrsz : field32 (serializeFrame f) 32 = f.rgb_size := by
    rw [serialize_field_rgb_size]; exact Nat.mod_eq_of_lt hr.2.2.1
  have hisz : field32 (serializeFrame f) 44 = f.ir_size := by
    rw [serialize_field_ir_size]; exact Nat.mod_eq_of_lt hi.2.2.1
  have hlen : (serializeFrame f).length =
      48 + (f.depth_size + (f.rgb_size + f.ir_size)) :=
    serializeFrame_length_of_wf f ⟨hts, hfid, hd, hr, hi⟩
  have h0 : field64 (serializeFrame f) 0 = f.timestamp := by
    rw [serialize_field_timestamp]; exact Nat.mod_eq_of_lt hts
  have h8 : field32 (serializeFrame f) 8 = f.frame_id := by
    rw [serialize_field_frame_id]; exact Nat.mod_eq_of_lt hfid
  have h12 : field32 (serializeFrame f) 12 = f.depth_width := by
    rw [serialize_field_depth_width]; exact Nat.mod_eq_of_lt hd.1
  have h16 : field32 (serializeFrame f) 16 = f.depth_height := by
    rw [serialize_field_depth_height]; exact Nat.mod_eq_of_lt hd.2.1
  have h24 : field32 (serializeFrame f) 24 = f.rgb_width := by
    rw [serialize_field_rgb_width]; exact Nat.mod_eq_of_lt hr.1
  have h28 : field32 (serializeFrame f) 28 = f.rgb_height := by
    rw [serialize_field_rgb_height]; exact Nat.mod_eq_of_lt hr.2.1
  have h36 : field32 (serializeFrame f) 36 = f.ir_width := by
    rw [serialize_field_ir_width]; exact Nat.mod_eq_of_lt hi.1
  have h40 : field32 (serializeFrame f) 40 = f.ir_height := by
    rw [serialize_field_ir_height]; exact Nat.mod_eq_of_lt hi.2.1
  have hdb : ((serializeFrame f).drop 48).take f.depth_size =
      f.depth_data.getD [] := by
    rw [serializeFrame_drop48,
      List.take_left' (sentPlaneBytes_length_of_wf hd),
      sentPlaneBytes_of_wf hd]
  have hrb : ((serializeFrame f).drop (48 + f.depth_size)).take f.rgb_size =
      f.rgb_data.getD [] := by
    rw [← List.drop_drop, serializeFrame_drop48,
      List.drop_left' (sentPlaneBytes_length_of_wf hd),
      List.take_left' (sentPlaneBytes_length_of_wf hr),
      sentPlaneBytes_of_wf hr]
  have hib : ((serializeFrame f).drop
      (48 + f.depth_size + f.rgb_size)).take f.ir_size =
      f.ir_data.getD [] := by
    rw [← List.drop_drop, ← List.drop_drop, serializeFrame_drop48,
      List.drop_left' (sentPlaneBytes_length_of_wf hd),
      List.drop_left' (sentPlaneBytes_length_of_wf hr),
      List.take_of_length_le (le_of_eq (sentPlaneBytes_length_of_wf hi)),
      sentPlaneBytes_of_wf hi]
  rw [parseFrame, hdsz, hrsz, hisz]
  rw [if_neg (by omega), if_pos (by omega)]
  rw [h0, h8, h12, h16, h24, h28, h36, h40, hdb, hrb, hib]

/-! ## The bounded frame queue (`m_frame_queue`) -/

/-- `MAX_QUEUE_SIZE` (include/PythonStreamServer.h:79). -/
def MAX_QUEUE_SIZE : Nat := 10

/-- The eviction loop of `pushFrame`
(`while (m_frame_queue.size() >= MAX_QUEUE_SIZE) m_frame_queue.pop();`,
PythonStreamServer.cpp:106-108), with explicit fuel; each iteration pops
the head, so `q.length` iterations always suffice. -/
def evictLoopGo : Nat → List StreamFrame → List StreamFrame
  | 0, q => q
  | fuel + 1, q =>
    if MAX_QUEUE_SIZE ≤ q.length then evictLoopGo fuel q.tail else q

def evictLoop (q : List StreamFrame) : List StreamFrame :=
  evictLoopGo q.length q

/-- The queue mutation performed by `PythonStreamServer::pushFrame` under
`m_frame_mutex` (PythonStreamServer.cpp:103-110): evict-oldest until below
capacity, then append the new frame at the tail. -/
def pushFrameQueue (q : List StreamFrame) (f : StreamFrame) :
    List StreamFrame :=
  evictLoop q ++ [f]

/-- The pop performed by `clientHandler` under `m_frame_mutex`
(PythonStreamServer.cpp:144-151): front element if any, plus the remaining
queue; `none` is the empty sentinel (`has_frame == false`). -/
def tryPop : List StreamFrame → Option StreamFrame × List StreamFrame
  | [] => (none, [])
  | f :: rest => (some f, rest)

theorem tryPop_snd (q : List StreamFrame) : (tryPop q).2 = q.tail := by
  cases q <;> rfl

theorem tryPop_fst (q : List StreamFrame) : (tryPop q).1 = q.head? := by
  cases q <;> rfl

theorem evictLoopGo_eq (fuel : Nat) :
    ∀ q : List StreamFrame, q.length ≤ fuel →
      evictLoopGo fuel q = q.drop (q.length - (MAX_QUEUE_SIZE - 1)) := by
  induction fuel with
  | zero =>
    intro q hq
    have : q = [] := List.eq_nil_of_length_eq_zero (Nat.le_zero.mp hq)
    subst this
    rfl
  | succ fuel ih =>
    intro q hq
    rw [evictLoopGo]
    by_cases h : MAX_QUEUE_SIZE ≤ q.length
    · rw [if_pos h]
      have htail : q.tail = q.drop 1 := (List.drop_one q).symm
      have hlt : q.tail.length ≤ fuel := by
        rw [htail, List.length_drop]
        omega
      rw [ih q.tail hlt, htail, List.length_drop, List.drop_drop]
      have : MAX_QUEUE_SIZE ≤ q.length := h
      congr 1
      simp [MAX_QUEUE_SIZE] at this ⊢
      omega
    · rw [if_neg h]
      simp [MAX_QUEUE_SIZE] at h
      have : q.length - (MAX_QUEUE_SIZE - 1) = 0 := by
        simp [MAX_QUEUE_SIZE]; omega
      rw [this, List.drop_zero]

/-- Closed form of the eviction loop: drop from the head down to 9
elements (a no-op when the queue is already below capacity). -/
theorem evictLoop_eq (q : List StreamFrame) :
    evictLoop q = q.drop (q.length - 9) :=
  evictLoopGo_eq q.length q le_rfl

theorem evictLoop_of_lt (q : List StreamFrame) (h : q.length < 10) :
    evictLoop q = q := by
  rw [evictLoop_eq]
  have : q.length - 9 = 0 := by omega
  rw [this, List.drop_zero]

theorem evictLoop_length (q : List StreamFrame) :
    (evictLoop q).length = q.length - (q.length - 9) := by
  rw [evictLoop_eq, List.length_drop]

theorem pushFrameQueue_length (q : List StreamFrame) (f : StreamFrame)
    (h : q.length ≤ 10) : (pushFrameQueue q f).length ≤ 10 := by
  have := evictLoop_length q
  simp only [pushFrameQueue, List.length_append, List.length_cons,
    List.length_nil]
  omega

/-- One operation on the shared queue: an ingestion push or a handler pop. -/
inductive QOp where
  | push (f : StreamFrame)
  | pop
  deriving DecidableEq

def applyQOp (q : List StreamFrame) : QOp → List StreamFrame
  | .push f => pushFrameQueue q f
  | .pop => (tryPop q).2

/-- Queue contents after a sequence of operations starting empty. -/
def runQOps (ops : List QOp) : List StreamFrame :=
  ops.foldl applyQOp []

/-- All frames pushed by a sequence of operations, in push order. -/
def pushedOf (ops : List QOp) : List StreamFrame :=
  ops.filterMap fun op => match op with | .push f => some f | .pop => none

theorem suffix_append_single {l m : List StreamFrame} (h : l <:+ m)
    (f : StreamFrame) : l ++ [f] <:+ m ++ [f] := by
  obtain ⟨s, hs⟩ := h
  exact ⟨s, by rw [← List.append_assoc, hs]⟩

theorem runQOps_aux (ops : List QOp) :
    ∀ (q P : List StreamFrame), q.length ≤ 10 → q <:+ P →
      (ops.foldl applyQOp q).length ≤ 10 ∧
      ops.foldl applyQOp q <:+ P ++ pushedOf ops := by
  induction ops with
  | nil =>
    intro q P hlen hsuf
    simpa [pushedOf] using ⟨hlen, hsuf⟩
  | cons op ops ih =>
    intro q P hlen hsuf
    cases op with
    | push f =>
      have hlen' : (pushFrameQueue q f).length ≤ 10 :=
        pushFrameQueue_length q f hlen
      have hsufe : evictLoop q <:+ q := by
        rw [evictLoop_eq]; exact List.drop_suffix _ q
      have hsuf' : pushFrameQueue q f <:+ P ++ [f] :=
        suffix_append_single (hsufe.trans hsuf) f
      have := ih (pushFrameQueue q f) (P ++ [f]) hlen' hsuf'
      simpa [applyQOp, pushedOf, List.filterMap_cons, List.append_assoc]
        using this
    | pop =>
      have hlen' : ((tryPop q).2).length ≤ 10 := by
        rw [tryPop_snd]
        have := List.length_tail q
        omega
      have hsuf' : (tryPop q).2 <:+ P := by
        rw [tryPop_snd, ← List.drop_one]
        exact (List.drop_suffix 1 q).trans hsuf
      have := ih ((tryPop q).2) P hlen' hsuf'
      simpa [applyQOp, pushedOf, List.filterMap_cons] using this

/-- Pushing up to capacity without pops just appends in order. -/
theorem foldl_pushFrameQueue_eq_append (fs : List StreamFrame) :
    ∀ q : List StreamFrame, q.length + fs.length ≤ 10 →
      fs.foldl pushFrameQueue q = q ++ fs := by
  induction fs with
  | nil => intro q _; simp
  | cons f fs ih =>
    intro q hq
    have hq10 : q.length < 10 := by
      simp [List.length_cons] at hq; omega
    have : pushFrameQueue q f = q ++ [f] := by
      rw [pushFrameQueue, evictLoop_of_lt q hq10]
    rw [List.foldl_cons, this, ih (q ++ [f]) (by simp at hq ⊢; omega)]
    simp

/-- Iterated pops: the queue after `n` successive `tryPop` calls. -/
def popIter : Nat → List StreamFrame → List StreamFrame
  | 0, q => q
  | n + 1, q => popIter n (tryPop q).2

theorem popIter_eq_drop (n : Nat) :
    ∀ q : List StreamFrame, popIter n q = q.drop n := by
  induction n with
  | zero => intro q; rfl
  | succ n ih =>
    intro q
    rw [popIter, ih, tryPop_snd, ← List.drop_one, List.drop_drop,
      Nat.add_comm]

theorem head?_drop_eq_get? (l : List StreamFrame) (n : Nat) :
    (l.drop n).head? = l.get? n := by
  induction n generalizing l with
  | zero => cases l <;> simp
  | succ n ih =>
    cases l with
    | nil => simp
    | cons a t => simp [ih]

/-! ## Server lifecycle and ingestion facade -/

/-- The mutable members of `PythonStreamServer` relevant to lifecycle and
ingestion (include/PythonStreamServer.h:70-80).  `listeners` counts the
accept loops (`serverThread`) currently running, so that "exactly one
listener" is expressible. -/
structure ServerState where
  m_server_socket : Int
  m_running : Bool
  m_frame_queue : List StreamFrame
  m_frame_counter : Nat
  listeners : Nat
  deriving DecidableEq, Repr

/-- Outcomes of the OS calls made by `start()`: the fd returned by
`socket()` (negative on failure) and success of `setsockopt`, `bind`,
`listen`. -/
structure OsEnv where
  socket_fd : Int
  setsockopt_ok : Bool
  bind_ok : Bool
  listen_ok : Bool
  deriving DecidableEq, Repr

/-- `PythonStreamServer::start` (PythonStreamServer.cpp:31-75).  Returns
the `bool` result together with the new state.  When already running it
returns `true` at once; otherwise it creates/configures the listening
socket (failures report `false`) and on success marks running and starts
the accept-loop thread. -/
def start (os : OsEnv) (st : ServerState) : Bool × ServerState :=
  if st.m_running then (true, st)
  else
    let st1 := { st with m_server_socket := os.socket_fd }
    if os.socket_fd < 0 then (false, st1)
    else if ¬ os.setsockopt_ok then (false, st1)
    else if ¬ os.bind_ok then (false, st1)
    else if ¬ os.listen_ok then (false, st1)
    else (true, { st1 with m_running := true, listeners := st1.listeners + 1 })

/-- `PythonStreamServer::stop` (PythonStreamServer.cpp:77-94): a no-op
when not running; otherwise clears the running flag, closes the listening
socket and joins the accept-loop thread (which then exits). -/
def stop (st : ServerState) : ServerState :=
  if ¬ st.m_running then st
  else { st with m_running := false, m_server_socket := -1, listeners := 0 }

/-- `PythonStreamServer::pushFrame` (PythonStreamServer.cpp:96-111).
`raw = none` models a null `pstData`.  The returned `Bool` is `true` when
the call returns normally and `false` when an exception (the
`std::bad_alloc` of a failed plane allocation, nowhere caught in
`pushFrame` or `convertToStreamFrame`) propagates to the caller; in the
latter case `m_frame_counter` has already been pre-incremented but the
queue is untouched. -/
def pushFrame (alloc : Nat → Bool) (ts : Nat) (raw : Option RawData)
    (st : ServerState) : Bool × ServerState :=
  match raw, st.m_running with
  | none, _ => (true, st)
  | some _, false => (true, st)
  | some r, true =>
    match convertToStreamFrame alloc ts r st.m_frame_counter with
    | .error c' => (false, { st with m_frame_counter := c' })
    | .ok (f, c') =>
      (true, { st with m_frame_counter := c',
                       m_frame_queue := pushFrameQueue st.m_frame_queue f })

/-- An allocator that never fails (`new` returning normally). -/
def allocOk : Nat → Bool := fun _ => true

/-! ## Behaviour of `convertToStreamFrame` -/

/-- What `convertToStreamFrame` establishes for one plane of its result,
relative to the corresponding raw plane. -/
def PlaneSpec (img : RawImg) (w h sz : Nat) (d : Option (List Nat)) :
    Prop :=
  (0 < img.size →
    w = img.width ∧ h = img.height ∧ sz = img.size ∧
    d = some (rawPlaneBytes img)) ∧
  (img.size = 0 → w = 0 ∧ h = 0 ∧ sz = 0 ∧ d = none)

theorem convertPlane_ok_cases (alloc : Nat → Bool) (img : RawImg)
    {w h sz : Nat} {d : Option (List Nat)}
    (hc : convertPlane alloc img = .ok (w, h, sz, d)) :
    PlaneSpec img w h sz d := by
  by_cases hp : 0 < img.size
  · refine ⟨fun _ => ?_, fun h0 => absurd h0 (by omega)⟩
    rw [convertPlane, if_pos hp] at hc
    cases ha : alloc img.size with
    | false => rw [ha] at hc; exact absurd hc (by simp)
    | true =>
      rw [ha] at hc
      simp only [if_pos, Except.ok.injEq, Prod.mk.injEq] at hc
      obtain ⟨h1, h2, h3, h4⟩ := hc
      exact ⟨h1.symm, h2.symm, h3.symm, h4.symm⟩
  · refine ⟨fun h0 => absurd h0 hp, fun _ => ?_⟩
    rw [convertPlane, if_neg hp] at hc
    simp only [Except.ok.injEq, Prod.mk.injEq] at hc
    obtain ⟨h1, h2, h3, h4⟩ := hc
    exact ⟨h1.symm, h2.symm, h3.symm, h4.symm⟩

/-- Full specification of a successful `convertToStreamFrame` call:
counter pre-incremented modulo `2^32`, timestamp stored into the
`uint64_t` field, and each output plane built from the raw plane. -/
theorem convertToStreamFrame_ok (alloc : Nat → Bool) (ts : Nat)
    (raw : RawData) (c : Nat) (f : StreamFrame) (c' : Nat)
    (h : convertToStreamFrame alloc ts raw c = .ok (f, c')) :
    c' = (c + 1) % 2 ^ 32 ∧
    f.timestamp = ts % 2 ^ 64 ∧ f.frame_id = (c + 1) % 2 ^ 32 ∧
    PlaneSpec raw.depthImg f.depth_width f.depth_height f.depth_size
      f.depth_data ∧
    PlaneSpec raw.rgbImg f.rgb_width f.rgb_height f.rgb_size f.rgb_data ∧
    PlaneSpec raw.irImg f.ir_width f.ir_height f.ir_size f.ir_data := by
  rw [convertToStreamFrame] at h
  cases hd : convertPlane alloc raw.depthImg with
  | error e => rw [hd] at h; exact absurd h (by simp)
  | ok vd =>
    obtain ⟨dw, dh, ds, dd⟩ := vd
    rw [hd] at h
    cases hr : convertPlane alloc raw.rgbImg with
    | error e => rw [hr] at h; exact absurd h (by simp)
    | ok vr =>
      obtain ⟨rw0, rh, rs, rd⟩ := vr
      rw [hr] at h
      cases hi : convertPlane alloc raw.irImg with
      | error e => rw [hi] at h; exact absurd h (by simp)
      | ok vi =>
        obtain ⟨iw, ih, isz, idt⟩ := vi
        rw [hi] at h
        simp only [Except.ok.injEq, Prod.mk.injEq] at h
        obtain ⟨hf, hc'⟩ := h
        subst hf
        refine ⟨hc'.symm, rfl, rfl, ?_, ?_, ?_⟩
        · exact convertPlane_ok_cases alloc raw.depthImg hd
        · exact convertPlane_ok_cases alloc raw.rgbImg hr
        · exact convertPlane_ok_cases alloc raw.irImg hi

/-- With an allocator that never fails `convertToStreamFrame` always
succeeds; closed form of its result. -/
theorem convertToStreamFrame_allocOk_eq (ts : Nat) (raw : RawData)
    (c : Nat) :
    convertToStreamFrame allocOk ts raw c =
      .ok ({ timestamp := ts % 2 ^ 64, frame_id := (c + 1) % 2 ^ 32,
             depth_width :=
               if 0 < raw.depthImg.size then raw.depthImg.width else 0,
             depth_height :=
               if 0 < raw.depthImg.size then raw.depthImg.height else 0,
             depth_size :=
               if 0 < raw.depthImg.size then raw.depthImg.size else 0,
             depth_data :=
               if 0 < raw.depthImg.size then some (rawPlaneBytes raw.depthImg)
               else none,
             rgb_width :=
               if 0 < raw.rgbImg.size then raw.rgbImg.width else 0,
             rgb_height :=
               if 0 < raw.rgbImg.size then raw.rgbImg.height else 0,
             rgb_size :=
               if 0 < raw.rgbImg.size then raw.rgbImg.size else 0,
             rgb_data :=
               if 0 < raw.rgbImg.size then some (rawPlaneBytes raw.rgbImg)
               else none,
             ir_width :=
               if 0 < raw.irImg.size then raw.irImg.width else 0,
             ir_height :=
               if 0 < raw.irImg.size then raw.irImg.height else 0,
             ir_size :=
               if 0 < raw.irImg.size then raw.irImg.size else 0,
             ir_data :=
               if 0 < raw.irImg.size then some (rawPlaneBytes raw.irImg)
               else none }, (c + 1) % 2 ^ 32) := by
  by_cases h1 : 0 < raw.depthImg.size <;>
    by_cases h2 : 0 < raw.rgbImg.size <;>
      by_cases h3 : 0 < raw.irImg.size <;>
        simp [convertToStreamFrame, convertPlane, allocOk, h1, h2, h3]

/-- The value of `m_frame_counter` after one `convertToStreamFrame` call,
whether or not the plane allocation threw. -/
def counterAfterConvert (alloc : Nat → Bool) (ts : Nat) (raw : RawData)
    (c : Nat) : Nat :=
  match convertToStreamFrame alloc ts raw c with
  | .error c' => c'
  | .ok (_, c') => c'

theorem convertToStreamFrame_error (alloc : Nat → Bool) (ts : Nat)
    (raw : RawData) (c c' : Nat)
    (h : convertToStreamFrame alloc ts raw c = .error c') :
    c' = (c + 1) % 2 ^ 32 := by
  rw [convertToStreamFrame] at h
  cases hd : convertPlane alloc raw.depthImg with
  | error e => rw [hd] at h; simp at h; omega
  | ok vd =>
    obtain ⟨dw, dh, ds, dd⟩ := vd
    rw [hd] at h
    cases hr : convertPlane alloc raw.rgbImg with
    | error e => rw [hr] at h; simp at h; omega
    | ok vr =>
      obtain ⟨rw0, rh, rs, rd⟩ := vr
      rw [hr] at h
      cases hi : convertPlane alloc raw.irImg with
      | error e => rw [hi] at h; simp at h; omega
      | ok vi =>
        obtain ⟨iw, ih, isz, idt⟩ := vi
        rw [hi] at h
        exact absurd h (by simp)

theorem counterAfterConvert_eq (alloc : Nat → Bool) (ts : Nat)
    (raw : RawData) (c : Nat) :
    counterAfterConvert alloc ts raw c = (c + 1) % 2 ^ 32 := by
  rw [counterAfterConvert]
  cases h : convertToStreamFrame alloc ts raw c with
  | error c' => exact convertToStreamFrame_error alloc ts raw c c' h
  | ok v =>
    obtain ⟨f, c'⟩ := v
    exact (convertToStreamFrame_ok alloc ts raw c f c' h).1

/-- `m_frame_counter` after `n` ingested frames (it starts at 0,
PythonStreamServer.cpp:23). -/
def counterIter (alloc : Nat → Bool) (ts : Nat) (raw : RawData) :
    Nat → Nat
  | 0 => 0
  | n + 1 => counterAfterConvert alloc ts raw (counterIter alloc ts raw n)

theorem counterIter_eq (alloc : Nat → Bool) (ts : Nat) (raw : RawData)
    (n : Nat) : counterIter alloc ts raw n = n % 2 ^ 32 := by
  induction n with
  | zero => rfl
  | succ n ih =>
    rw [counterIter, counterAfterConvert_eq, ih]
    omega

/-- The frame produced by a successful `convertToStreamFrame` call. -/
def convertedFrame (alloc : Nat → Bool) (ts : Nat) (raw : RawData)
    (c : Nat) : StreamFrame :=
  match convertToStreamFrame alloc ts raw c with
  | .ok (f, _) => f
  | .error _ => default

/-- `frame_id` of the `(n+1)`-th frame ingested by one server instance. -/
def nthPushedFrameId (alloc : Nat → Bool) (ts : Nat) (raw : RawData)
    (n : Nat) : Nat :=
  (convertedFrame alloc ts raw (counterIter alloc ts raw n)).frame_id

theorem nthPushedFrameId_eq (ts : Nat) (raw : RawData) (n : Nat) :
    nthPushedFrameId allocOk ts raw n = (n + 1) % 2 ^ 32 := by
  rw [nthPushedFrameId, counterIter_eq, convertedFrame,
    convertToStreamFrame_allocOk_eq]
  simp

/-! ## `sendFrameToClient` and the per-connection handler -/

/-- One plane block of `sendFrameToClient`
(PythonStreamServer.cpp:211-232): a `send` call is made only when
`size > 0` and the buffer pointer is non-null; it consumes the next
`send` return value and the block fails (`return false`) unless that value
equals the requested size. -/
def sendPlane (sz : Nat) (d : Option (List Nat)) (replies : List Int) :
    Bool × List Int :=
  if 0 < sz ∧ d.isSome then
    (decide (replies.headD (-1) = (sz : Int)), replies.tail)
  else
    (true, replies)

/-- One plane block together with the early `return false` of the blocks
before it: if an earlier `send` already failed, control has left the
function and this plane's `send` never happens. -/
def sendStep (sz : Nat) (d : Option (List Nat)) (st : Bool × List Int) :
    Bool × List Int :=
  if st.1 then sendPlane sz d st.2 else st

/-- `PythonStreamServer::sendFrameToClient` (PythonStreamServer.cpp:175-243)
against a `send` oracle: `replies` lists the return values of successive
`send` calls (`-1` when the socket errors, fewer than requested on a short
write).  Returns the `bool` result and the unconsumed oracle suffix.  The
header send fails unless it returns exactly `sizeof(header) = 48`; each
plane block runs only if everything before it succeeded. -/
def sendFrameToClient (f : StreamFrame) (replies : List Int) :
    Bool × List Int :=
  sendStep f.ir_size f.ir_data
    (sendStep f.rgb_size f.rgb_data
      (sendStep f.depth_size f.depth_data
        (decide (replies.headD (-1) = 48), replies.tail)))

/-- The byte counts requested from `send` for one frame, in call order:
48 for the header, then the size of each plane that is actually sent. -/
def sendCallSizes (f : StreamFrame) : List Int :=
  48 :: ((if 0 < f.depth_size ∧ f.depth_data.isSome
          then [(f.depth_size : Int)] else []) ++
         (if 0 < f.rgb_size ∧ f.rgb_data.isSome
          then [(f.rgb_size : Int)] else []) ++
         (if 0 < f.ir_size ∧ f.ir_data.isSome
          then [(f.ir_size : Int)] else []))

theorem sendPlane_true_elim {sz : Nat} {d : Option (List Nat)}
    {replies rest : List Int}
    (h : sendPlane sz d replies = (true, rest)) :
    ((0 < sz ∧ d.isSome) ∧ replies = (sz : Int) :: rest) ∨
    (¬ (0 < sz ∧ d.isSome) ∧ rest = replies) := by
  by_cases hp : 0 < sz ∧ d.isSome
  · left
    rw [sendPlane, if_pos hp] at h
    simp only [Prod.mk.injEq, decide_eq_true_eq] at h
    obtain ⟨hv, ht⟩ := h
    refine ⟨hp, ?_⟩
    cases replies with
    | nil =>
      exfalso
      simp only [List.headD_nil] at hv
      omega
    | cons r t =>
      simp at hv ht
      rw [hv, ht]
  · right
    rw [sendPlane, if_neg hp] at h
    simp only [Prod.mk.injEq] at h
    exact ⟨hp, h.2.symm⟩

theorem sendStep_true_elim {sz : Nat} {d : Option (List Nat)}
    {st : Bool × List Int} {rest : List Int}
    (h : sendStep sz d st = (true, rest)) :
    st.1 = true ∧ sendPlane sz d st.2 = (true, rest) := by
  by_cases hb : st.1
  · rw [sendStep, if_pos hb] at h
    exact ⟨hb, h⟩
  · rw [sendStep, if_neg hb] at h
    rw [h] at hb
    simp at hb

/-- A successful `sendFrameToClient` consumed exactly the requested byte
counts: every `send` performed returned precisely what was asked. -/
theorem sendFrameToClient_true_prefix {f : StreamFrame}
    {replies : List Int} (h : (sendFrameToClient f replies).1 = true) :
    sendCallSizes f <+: replies := by
  rw [sendFrameToClient] at h
  cases h3 : sendStep f.ir_size f.ir_data
      (sendStep f.rgb_size f.rgb_data
        (sendStep f.depth_size f.depth_data
          (decide (replies.headD (-1) = 48), replies.tail))) with
  | mk b3 rest3 =>
    rw [h3] at h
    simp at h
    subst h
    obtain ⟨hb2, hp3⟩ := sendStep_true_elim h3
    cases h2 : sendStep f.rgb_size f.rgb_data
        (sendStep f.depth_size f.depth_data
          (decide (replies.headD (-1) = 48), replies.tail)) with
    | mk b2 rest2 =>
      rw [h2] at hb2 hp3
      simp at hb2
      subst hb2
      obtain ⟨hb1, hp2⟩ := sendStep_true_elim h2
      cases h1 : sendStep f.depth_size f.depth_data
          (decide (replies.headD (-1) = 48), replies.tail) with
      | mk b1 rest1 =>
        rw [h1] at hb1 hp2
        simp at hb1
        subst hb1
        obtain ⟨hb0, hp1⟩ := sendStep_true_elim h1
        simp only [decide_eq_true_eq] at hb0
        cases replies with
        | nil => simp at hb0
        | cons r0 t0 =>
          simp at hb0
          subst hb0
          simp only [List.tail_cons] at hp1
          rcases sendPlane_true_elim hp1 with ⟨hc1, he1⟩ | ⟨hc1, he1⟩ <;>
            rcases sendPlane_true_elim hp2 with ⟨hc2, he2⟩ | ⟨hc2, he2⟩ <;>
              rcases sendPlane_true_elim hp3 with ⟨hc3, he3⟩ | ⟨hc3, he3⟩ <;>
                subst he1 <;> subst he2 <;> subst he3 <;>
                  simp [sendCallSizes, hc1, hc2, hc3,
                    List.cons_prefix_cons]


/-- Index form of `sendFrameToClient_true_prefix`: on success the `i`-th
`send` call returned exactly the `i`-th requested byte count. -/
theorem sendFrameToClient_true_getD {f : StreamFrame} {replies : List Int}
    (h : (sendFrameToClient f replies).1 = true)
    {i : Nat} (hi : i < (sendCallSizes f).length) :
    replies.getD i (-1) = (sendCallSizes f).getD i 0 := by
  obtain ⟨t, ht⟩ := sendFrameToClient_true_prefix h
  subst ht
  simp [List.getD_eq_getElem?_getD, List.getElem?_append, hi,
    List.getElem?_eq_getElem hi]

/-- When every `send` returns exactly what was requested,
`sendFrameToClient` succeeds. -/
theorem sendFrameToClient_perfect (f : StreamFrame) :
    (sendFrameToClient f (sendCallSizes f)).1 = true := by
  by_cases h1 : 0 < f.depth_size ∧ f.depth_data.isSome <;>
    by_cases h2 : 0 < f.rgb_size ∧ f.rgb_data.isSome <;>
      by_cases h3 : 0 < f.ir_size ∧ f.ir_data.isSome <;>
        simp [sendFrameToClient, sendStep, sendPlane, sendCallSizes,
          h1, h2, h3]

/-- Observable actions of one `clientHandler` thread on its socket. -/
inductive HandlerEvent where
  | frameSent (id : Nat)
  | shutdownRDWR
  | closeSock
  deriving DecidableEq, Repr

/-- `PythonStreamServer::clientHandler` (PythonStreamServer.cpp:135-173)
on one connection: for each frame popped from the queue it calls
`sendFrameToClient`; on failure it breaks out of the loop immediately.
After the loop (failure, or server stop once the listed frames are done)
it always performs `shutdown(SHUT_RDWR)` then `close`.  `frames` is the
sequence of frames this handler pops; `replies` the socket's `send`
oracle. -/
def clientHandler : List StreamFrame → List Int → List HandlerEvent
  | [], _ => [.shutdownRDWR, .closeSock]
  | f :: rest, replies =>
    match sendFrameToClient f replies with
    | (true, replies') =>
      .frameSent f.frame_id :: clientHandler rest replies'
    | (false, _) => [.shutdownRDWR, .closeSock]

/-- A failed send makes the handler close at once: no retry, no
partial-frame recovery, no further sends, independent of what else is in
the queue. -/
theorem clientHandler_fail {f : StreamFrame} {replies : List Int}
    (h : (sendFrameToClient f replies).1 = false)
    (rest : List StreamFrame) :
    clientHandler (f :: rest) replies =
      [HandlerEvent.shutdownRDWR, HandlerEvent.closeSock] := by
  rw [clientHandler]
  cases hs : sendFrameToClient f replies with
  | mk b r =>
    rw [hs] at h
    simp at h
    subst h
    rfl

theorem sentPlaneBytes_none (sz : Nat) : sentPlaneBytes sz none = [] :=
  rfl

theorem sentPlaneBytes_length_le (sz : Nat) (d : Option (List Nat)) :
    (sentPlaneBytes sz d).length ≤ sz := by
  cases d with
  | none => simp [sentPlaneBytes]
  | some b =>
    by_cases h : 0 < sz <;> simp [sentPlaneBytes, h]

/-! ## Claim theorems -/

/-- C1: for every `StreamFrame` with arbitrary present/absent planes,
serializing it with `sendFrameToClient` (48-byte native-order header
followed by depth, then RGB, then IR plane bytes, each omitted when its
size is 0) and then parsing per the documented wire layout reconstructs
the identical `timestamp`, `frame_id`, per-plane width/height/size, and
byte-identical plane contents. -/
theorem claim_C1_serialize_roundtrip (f : StreamFrame) (hf : FrameWF f) :
    parseFrame (serializeFrame f) =
      some { timestamp := f.timestamp, frame_id := f.frame_id,
             depth_width := f.depth_width, depth_height := f.depth_height,
             depth_size := f.depth_size,
             rgb_width := f.rgb_width, rgb_height := f.rgb_height,
             rgb_size := f.rgb_size,
             ir_width := f.ir_width, ir_height := f.ir_height,
             ir_size := f.ir_size,
             depth_bytes := f.depth_data.getD [],
             rgb_bytes := f.rgb_data.getD [],
             ir_bytes := f.ir_data.getD [] } :=
  parseFrame_serializeFrame f hf

theorem claim_C1_serialize_roundtrip_witness :
    FrameWF ⟨123, 7, 2, 1, 2, some [10, 20], 0, 0, 0, none,
             1, 1, 1, some [9]⟩ ∧
    parseFrame (serializeFrame ⟨123, 7, 2, 1, 2, some [10, 20], 0, 0, 0,
        none, 1, 1, 1, some [9]⟩) =
      some ⟨123, 7, 2, 1, 2, 0, 0, 0, 1, 1, 1,
            (some [10, 20]).getD [], (none : Option (List Nat)).getD [],
            (some [9]).getD []⟩ :=
  have hwf : FrameWF ⟨123, 7, 2, 1, 2, some [10, 20], 0, 0, 0, none,
      1, 1, 1, some [9]⟩ := by
    refine ⟨by norm_num, by norm_num, ?_, ?_, ?_⟩ <;>
      refine ⟨by norm_num, by norm_num, by norm_num, by simp, ?_⟩ <;>
        intro b hb <;> simp at hb <;> simp [← hb]
  ⟨hwf, claim_C1_serialize_roundtrip _ hwf⟩

/-- C2: for every sequence of `pushFrame` and pop operations starting
from an empty queue, the frame queue's length never exceeds 10, and the
retained elements are always the most-recently pushed frames in push
order (a suffix of the push history). -/
theorem claim_C2_queue_bound (ops : List QOp) :
    (runQOps ops).length ≤ 10 ∧ runQOps ops <:+ pushedOf ops := by
  have h := runQOps_aux ops [] [] (by simp) (by simp)
  simpa [runQOps] using h

/-- A frame whose only distinguishing field is its id, for concrete
queue scenarios. -/
def idFrame (n : Nat) : StreamFrame :=
  ⟨0, n, 0, 0, 0, none, 0, 0, 0, none, 0, 0, 0, none⟩

/-- C3: the frame queue is a FIFO with drop-oldest eviction: pushing
`N ≤ 10` frames into an empty buffer stores them unchanged in push order
and successive `tryPop` calls return them first-in-first-out, then the
empty sentinel; pushing into a full buffer of 10 drops the head first;
concretely, pushing ids 1..11 into an empty buffer leaves ids 2..11. -/
theorem claim_C3_fifo_eviction :
    (∀ fs : List StreamFrame, fs.length ≤ 10 →
      fs.foldl pushFrameQueue [] = fs ∧
      ∀ i : Nat,
        (tryPop (popIter i (fs.foldl pushFrameQueue []))).1 = fs.get? i) ∧
    (∀ (q : List StreamFrame) (f : StreamFrame), q.length = 10 →
      pushFrameQueue q f = q.tail ++ [f]) ∧
    ((List.range 11).map (fun k => idFrame (k + 1))).foldl pushFrameQueue []
      = (List.range 10).map (fun k => idFrame (k + 2)) := by
  refine ⟨?_, ?_, ?_⟩
  · intro fs hlen
    have heq : fs.foldl pushFrameQueue [] = fs :=
      foldl_pushFrameQueue_eq_append fs [] (by simpa using hlen)
    refine ⟨heq, fun i => ?_⟩
    rw [heq, popIter_eq_drop, tryPop_fst, head?_drop_eq_get?]
  · intro q f hq
    rw [pushFrameQueue, evictLoop_eq, hq]
    norm_num
  · decide

theorem claim_C3_fifo_eviction_witness :
    [idFrame 1, idFrame 2].foldl pushFrameQueue [] =
      [idFrame 1, idFrame 2] ∧
    (tryPop (popIter 0 ([idFrame 1, idFrame 2].foldl pushFrameQueue []))).1
      = [idFrame 1, idFrame 2].get? 0 ∧
    pushFrameQueue ((List.range 10).map (fun k => idFrame (k + 1)))
        (idFrame 11)
      = ((List.range 10).map (fun k => idFrame (k + 1))).tail ++
        [idFrame 11] :=
  ⟨(claim_C3_fifo_eviction.1 [idFrame 1, idFrame 2] (by decide)).1,
   (claim_C3_fifo_eviction.1 [idFrame 1, idFrame 2] (by decide)).2 0,
   claim_C3_fifo_eviction.2.1 _ (idFrame 11) (by simp)⟩

/-- C4: the serialized message for one frame is exactly a 48-byte header
with fields in the order timestamp (8 bytes), frame_id (4), depth w/h/size
(4 each), rgb w/h/size, ir w/h/size, followed by the declared plane bytes;
in particular, for a frame with depth_size=100, rgb_size=0, ir_size=0 the
header shows rgb_size=0 and ir_size=0 and exactly 148 bytes are sent. -/
theorem claim_C4_wire_format :
    (∀ f : StreamFrame, FrameWF f →
      (serializeFrame f).length =
        48 + f.depth_size + f.rgb_size + f.ir_size ∧
      (headerBytes f).length = 48 ∧
      (serializeFrame f).take 48 = headerBytes f ∧
      field64 (serializeFrame f) 0 = f.timestamp ∧
      field32 (serializeFrame f) 8 = f.frame_id ∧
      field32 (serializeFrame f) 12 = f.depth_width ∧
      field32 (serializeFrame f) 16 = f.depth_height ∧
      field32 (serializeFrame f) 20 = f.depth_size ∧
      field32 (serializeFrame f) 24 = f.rgb_width ∧
      field32 (serializeFrame f) 28 = f.rgb_height ∧
      field32 (serializeFrame f) 32 = f.rgb_size ∧
      field32 (serializeFrame f) 36 = f.ir_width ∧
      field32 (serializeFrame f) 40 = f.ir_height ∧
      field32 (serializeFrame f) 44 = f.ir_size) ∧
    ((serializeFrame ⟨0, 1, 10, 10, 100, some (List.replicate 100 7),
        0, 0, 0, none, 0, 0, 0, none⟩).length = 148 ∧
      field32 (serializeFrame ⟨0, 1, 10, 10, 100,
        some (List.replicate 100 7), 0, 0, 0, none, 0, 0, 0, none⟩) 32
        = 0 ∧
      field32 (serializeFrame ⟨0, 1, 10, 10, 100,
        some (List.replicate 100 7), 0, 0, 0, none, 0, 0, 0, none⟩) 44
        = 0) := by
  constructor
  · intro f hf
    obtain ⟨hts, hfid, hd, hr, hi⟩ := hf
    refine ⟨?_, headerBytes_length f, ?_, ?_, ?_, ?_, ?_, ?_, ?_, ?_, ?_,
      ?_, ?_, ?_⟩
    · rw [serializeFrame_length_of_wf f ⟨hts, hfid, hd, hr, hi⟩]
      omega
    · rw [serializeFrame, List.append_assoc, List.append_assoc,
        List.take_left' (headerBytes_length f)]
    · rw [serialize_field_timestamp]; exact Nat.mod_eq_of_lt hts
    · rw [serialize_field_frame_id]; exact Nat.mod_eq_of_lt hfid
    · rw [serialize_field_depth_width]; exact Nat.mod_eq_of_lt hd.1
    · rw [serialize_field_depth_height]; exact Nat.mod_eq_of_lt hd.2.1
    · rw [serialize_field_depth_size]; exact Nat.mod_eq_of_lt hd.2.2.1
    · rw [serialize_field_rgb_width]; exact Nat.mod_eq_of_lt hr.1
    · rw [serialize_field_rgb_height]; exact Nat.mod_eq_of_lt hr.2.1
    · rw [serialize_field_rgb_size]; exact Nat.mod_eq_of_lt hr.2.2.1
    · rw [serialize_field_ir_width]; exact Nat.mod_eq_of_lt hi.1
    · rw [serialize_field_ir_height]; exact Nat.mod_eq_of_lt hi.2.1
    · rw [serialize_field_ir_size]; exact Nat.mod_eq_of_lt hi.2.2.1
  · refine ⟨?_, ?_, ?_⟩
    · simp [serializeFrame, headerBytes_length, sentPlaneBytes]
    · rw [serialize_field_rgb_size]; rfl
    · rw [serialize_field_ir_size]; rfl

theorem claim_C4_wire_format_witness :
    FrameWF ⟨5, 2, 1, 1, 1, some [42], 0, 0, 0, none, 0, 0, 0, none⟩ ∧
    (serializeFrame ⟨5, 2, 1, 1, 1, some [42], 0, 0, 0, none,
        0, 0, 0, none⟩).length =
      48 + 1 + 0 + 0 :=
  have hwf : FrameWF ⟨5, 2, 1, 1, 1, some [42], 0, 0, 0, none,
      0, 0, 0, none⟩ := by
    refine ⟨by norm_num, by norm_num, ?_, ?_, ?_⟩ <;>
      refine ⟨by norm_num, by norm_num, by norm_num, by simp, ?_⟩ <;>
        intro b hb <;> simp at hb <;> simp [← hb]
  ⟨hwf, (claim_C4_wire_format.1 _ hwf).1⟩

/-- C5 counterexample: with a failing plane allocation, `pushFrame` does
not return without error — the uncaught `std::bad_alloc` propagates to the
caller (result flag `false`), and the server state is not left unchanged
(the frame counter was already pre-incremented). -/
theorem claim_C5_counterexample :
    (pushFrame (fun _ => false) 0
      (some ⟨⟨1, 1, 1, some [5]⟩, ⟨0, 0, 0, none⟩, ⟨0, 0, 0, none⟩⟩)
      ⟨3, true, [], 0, 1⟩).1 = false ∧
    (pushFrame (fun _ => false) 0
      (some ⟨⟨1, 1, 1, some [5]⟩, ⟨0, 0, 0, none⟩, ⟨0, 0, 0, none⟩⟩)
      ⟨3, true, [], 0, 1⟩).2 ≠ ⟨3, true, [], 0, 1⟩ := by
  constructor <;> decide

/-- C5 amended: a null raw-frame pointer (or a stopped server) makes
`pushFrame` a silent no-op, but a plane-buffer allocation failure
propagates the exception to the caller; in that case the frame queue is
left unchanged while `m_frame_counter` has already been incremented. -/
theorem claim_C5_ingestion_failures :
    (∀ (alloc : Nat → Bool) (ts : Nat) (st : ServerState),
      pushFrame alloc ts none st = (true, st)) ∧
    (∀ (alloc : Nat → Bool) (ts : Nat) (st : ServerState),
      st.m_running = false → ∀ raw : Option RawData,
        pushFrame alloc ts raw st = (true, st)) ∧
    (∀ (alloc : Nat → Bool) (ts : Nat) (raw : RawData) (st : ServerState),
      (pushFrame alloc ts (some raw) st).1 = false →
        (pushFrame alloc ts (some raw) st).2.m_frame_queue =
          st.m_frame_queue ∧
        (pushFrame alloc ts (some raw) st).2.m_frame_counter =
          (st.m_frame_counter + 1) % 2 ^ 32) := by
  refine ⟨fun alloc ts st => rfl, ?_, ?_⟩
  · intro alloc ts st h raw
    cases raw with
    | none => rfl
    | some r => simp [pushFrame, h]
  · intro alloc ts raw st h
    cases hr : st.m_running with
    | false => simp [pushFrame, hr] at h
    | true =>
      cases hc : convertToStreamFrame alloc ts raw st.m_frame_counter with
      | ok v => simp [pushFrame, hr, hc] at h
      | error c' =>
        simp [pushFrame, hr, hc]
        exact convertToStreamFrame_error alloc ts raw st.m_frame_counter
          c' hc

theorem claim_C5_ingestion_failures_witness :
    (pushFrame (fun _ => false) 0
      (some ⟨⟨1, 1, 2, some [5, 6]⟩, ⟨0, 0, 0, none⟩, ⟨0, 0, 0, none⟩⟩)
      ⟨3, true, [], 7, 1⟩).2.m_frame_queue =
      (⟨3, true, [], 7, 1⟩ : ServerState).m_frame_queue ∧
    (pushFrame (fun _ => false) 0
      (some ⟨⟨1, 1, 2, some [5, 6]⟩, ⟨0, 0, 0, none⟩, ⟨0, 0, 0, none⟩⟩)
      ⟨3, true, [], 7, 1⟩).2.m_frame_counter =
      ((⟨3, true, [], 7, 1⟩ : ServerState).m_frame_counter + 1) % 2 ^ 32 :=
  claim_C5_ingestion_failures.2.2 (fun _ => false) 0
    ⟨⟨1, 1, 2, some [5, 6]⟩, ⟨0, 0, 0, none⟩, ⟨0, 0, 0, none⟩⟩
    ⟨3, true, [], 7, 1⟩ (by decide)

/-- C6: if any write of a frame's bytes is short — the `i`-th `send` call
(byte counts listed by `sendCallSizes`: 48 for the header, then each
present plane's size) returns fewer bytes than requested — then
`sendFrameToClient` reports failure, and the connection handler performs
no retry or partial-frame recovery: it immediately transitions to closing
(bidirectional shutdown then close of its socket), regardless of any
frames still queued.  Each handler's run depends only on its own socket
oracle, so other connections are unaffected. -/
theorem claim_C6_short_write_fatal (f : StreamFrame) (replies : List Int)
    (rest : List StreamFrame) :
    (∀ i : Nat, i < (sendCallSizes f).length →
      replies.getD i (-1) < (sendCallSizes f).getD i 0 →
      (sendFrameToClient f replies).1 = false) ∧
    (sendCallSizes f).getD 0 0 = 48 ∧
    ((sendFrameToClient f replies).1 = false →
      clientHandler (f :: rest) replies =
        [HandlerEvent.shutdownRDWR, HandlerEvent.closeSock]) := by
  refine ⟨?_, rfl, fun h => clientHandler_fail h rest⟩
  intro i hi hshort
  cases hb : (sendFrameToClient f replies).1 with
  | false => rfl
  | true =>
    have := sendFrameToClient_true_getD hb hi
    omega

theorem claim_C6_short_write_fatal_witness :
    (sendFrameToClient ⟨0, 9, 0, 0, 0, none, 0, 0, 0, none,
        0, 0, 0, none⟩ [40]).1 = false ∧
    clientHandler [⟨0, 9, 0, 0, 0, none, 0, 0, 0, none, 0, 0, 0, none⟩]
        [40] =
      [HandlerEvent.shutdownRDWR, HandlerEvent.closeSock] :=
  have hfail : (sendFrameToClient ⟨0, 9, 0, 0, 0, none, 0, 0, 0, none,
      0, 0, 0, none⟩ [40]).1 = false :=
    (claim_C6_short_write_fatal _ [40] []).1 0 (by decide) (by decide)
  ⟨hfail, (claim_C6_short_write_fatal _ [40] []).2.2 hfail⟩

/-- C7 counterexample: the `uint32_t` frame counter wraps: the
4294967295-th ingested frame has id 4294967295 but the 4294967296-th has
id 0 (not strictly greater), and the 4294967297-th repeats the first
frame's id 1. -/
theorem claim_C7_counterexample :
    nthPushedFrameId allocOk 0
        ⟨⟨0, 0, 0, none⟩, ⟨0, 0, 0, none⟩, ⟨0, 0, 0, none⟩⟩
        (2 ^ 32 - 2) = 2 ^ 32 - 1 ∧
    nthPushedFrameId allocOk 0
        ⟨⟨0, 0, 0, none⟩, ⟨0, 0, 0, none⟩, ⟨0, 0, 0, none⟩⟩
        (2 ^ 32 - 1) = 0 ∧
    ¬ (nthPushedFrameId allocOk 0
        ⟨⟨0, 0, 0, none⟩, ⟨0, 0, 0, none⟩, ⟨0, 0, 0, none⟩⟩
        (2 ^ 32 - 2) <
       nthPushedFrameId allocOk 0
        ⟨⟨0, 0, 0, none⟩, ⟨0, 0, 0, none⟩, ⟨0, 0, 0, none⟩⟩
        (2 ^ 32 - 1)) ∧
    nthPushedFrameId allocOk 0
        ⟨⟨0, 0, 0, none⟩, ⟨0, 0, 0, none⟩, ⟨0, 0, 0, none⟩⟩ (2 ^ 32) =
      nthPushedFrameId allocOk 0
        ⟨⟨0, 0, 0, none⟩, ⟨0, 0, 0, none⟩, ⟨0, 0, 0, none⟩⟩ 0 := by
  simp only [nthPushedFrameId_eq]
  norm_num

/-- C7 amended: `frame_id` is the pre-increment of a process-wide 32-bit
counter; ids are strictly increasing among the first `2^32 - 1` ingested
frames and pairwise distinct among the first `2^32`, after which the
counter wraps and ids repeat. -/
theorem claim_C7_frame_id_monotone (ts : Nat) (raw : RawData)
    (m n : Nat) :
    (m < n → n + 1 < 2 ^ 32 →
      nthPushedFrameId allocOk ts raw m <
        nthPushedFrameId allocOk ts raw n) ∧
    (m < n → n < 2 ^ 32 →
      nthPushedFrameId allocOk ts raw m ≠
        nthPushedFrameId allocOk ts raw n) := by
  rw [nthPushedFrameId_eq, nthPushedFrameId_eq]
  constructor <;> intro hmn hn <;> omega

theorem claim_C7_frame_id_monotone_witness :
    nthPushedFrameId allocOk 0
        ⟨⟨0, 0, 0, none⟩, ⟨0, 0, 0, none⟩, ⟨0, 0, 0, none⟩⟩ 0 <
      nthPushedFrameId allocOk 0
        ⟨⟨0, 0, 0, none⟩, ⟨0, 0, 0, none⟩, ⟨0, 0, 0, none⟩⟩ 1 ∧
    nthPushedFrameId allocOk 0
        ⟨⟨0, 0, 0, none⟩, ⟨0, 0, 0, none⟩, ⟨0, 0, 0, none⟩⟩ 0 ≠
      nthPushedFrameId allocOk 0
        ⟨⟨0, 0, 0, none⟩, ⟨0, 0, 0, none⟩, ⟨0, 0, 0, none⟩⟩ 1 :=
  ⟨(claim_C7_frame_id_monotone 0 _ 0 1).1 (by norm_num) (by norm_num),
   (claim_C7_frame_id_monotone 0 _ 0 1).2 (by norm_num) (by norm_num)⟩

/-- C8: for every non-null raw frame, normalization produces a frame
where, for each of the depth/RGB/IR planes: if the raw plane's reported
size is > 0, the output plane carries the raw width, height and size and
an owned buffer byte-for-byte equal to the raw plane's data; otherwise
the output plane's width, height and size are all 0 and no buffer is
attached. -/
theorem claim_C8_normalization (alloc : Nat → Bool) (ts : Nat)
    (raw : RawData) (c : Nat) (f : StreamFrame) (c' : Nat)
    (h : convertToStreamFrame alloc ts raw c = .ok (f, c')) :
    PlaneSpec raw.depthImg f.depth_width f.depth_height f.depth_size
      f.depth_data ∧
    PlaneSpec raw.rgbImg f.rgb_width f.rgb_height f.rgb_size f.rgb_data ∧
    PlaneSpec raw.irImg f.ir_width f.ir_height f.ir_size f.ir_data ∧
    (∀ b : List Nat, raw.depthImg.data = some b →
      b.length = raw.depthImg.size → 0 < raw.depthImg.size →
      f.depth_data = some b) ∧
    (∀ b : List Nat, raw.rgbImg.data = some b →
      b.length = raw.rgbImg.size → 0 < raw.rgbImg.size →
      f.rgb_data = some b) ∧
    (∀ b : List Nat, raw.irImg.data = some b →
      b.length = raw.irImg.size → 0 < raw.irImg.size →
      f.ir_data = some b) := by
  obtain ⟨-, -, -, hd, hr, hi⟩ := convertToStreamFrame_ok alloc ts raw c
    f c' h
  refine ⟨hd, hr, hi, ?_, ?_, ?_⟩
  · intro b hb hlen hpos
    rw [(hd.1 hpos).2.2.2, rawPlaneBytes, hb, Option.getD_some,
      List.take_of_length_le (le_of_eq hlen)]
  · intro b hb hlen hpos
    rw [(hr.1 hpos).2.2.2, rawPlaneBytes, hb, Option.getD_some,
      List.take_of_length_le (le_of_eq hlen)]
  · intro b hb hlen hpos
    rw [(hi.1 hpos).2.2.2, rawPlaneBytes, hb, Option.getD_some,
      List.take_of_length_le (le_of_eq hlen)]

theorem claim_C8_normalization_witness :
    PlaneSpec (⟨2, 1, 2, some [3, 4]⟩ : RawImg) 2 1 2 (some [3, 4]) ∧
    PlaneSpec (⟨0, 0, 0, none⟩ : RawImg) 0 0 0 none ∧
    PlaneSpec (⟨1, 1, 1, some [9]⟩ : RawImg) 1 1 1 (some [9]) ∧
    (∀ b : List Nat,
      (⟨2, 1, 2, some [3, 4]⟩ : RawImg).data = some b →
      b.length = (⟨2, 1, 2, some [3, 4]⟩ : RawImg).size →
      0 < (⟨2, 1, 2, some [3, 4]⟩ : RawImg).size →
      (⟨5, 1, 2, 1, 2, some [3, 4], 0, 0, 0, none, 1, 1, 1,
        some [9]⟩ : StreamFrame).depth_data = some b) ∧
    (∀ b : List Nat,
      (⟨0, 0, 0, none⟩ : RawImg).data = some b →
      b.length = (⟨0, 0, 0, none⟩ : RawImg).size →
      0 < (⟨0, 0, 0, none⟩ : RawImg).size →
      (⟨5, 1, 2, 1, 2, some [3, 4], 0, 0, 0, none, 1, 1, 1,
        some [9]⟩ : StreamFrame).rgb_data = some b) ∧
    (∀ b : List Nat,
      (⟨1, 1, 1, some [9]⟩ : RawImg).data = some b →
      b.length = (⟨1, 1, 1, some [9]⟩ : RawImg).size →
      0 < (⟨1, 1, 1, some [9]⟩ : RawImg).size →
      (⟨5, 1, 2, 1, 2, some [3, 4], 0, 0, 0, none, 1, 1, 1,
        some [9]⟩ : StreamFrame).ir_data = some b) :=
  claim_C8_normalization allocOk 5
    ⟨⟨2, 1, 2, some [3, 4]⟩, ⟨0, 0, 0, none⟩, ⟨1, 1, 1, some [9]⟩⟩ 0
    ⟨5, 1, 2, 1, 2, some [3, 4], 0, 0, 0, none, 1, 1, 1, some [9]⟩ 1
    (by rfl)

/-- C9: lifecycle operations are idempotent: `start()` on a running
server returns success immediately without changing any state (in
particular without starting a second listener), and `stop()` on a
non-running server is a no-op. -/
theorem claim_C9_idempotent_lifecycle :
    (∀ (os : OsEnv) (st : ServerState), st.m_running = true →
      start os st = (true, st)) ∧
    (∀ st : ServerState, st.m_running = false → stop st = st) := by
  constructor
  · intro os st h
    simp [start, h]
  · intro st h
    simp [stop, h]

theorem claim_C9_idempotent_lifecycle_witness :
    start ⟨5, true, true, true⟩ ⟨4, true, [], 0, 1⟩ =
      (true, ⟨4, true, [], 0, 1⟩) ∧
    stop ⟨-1, false, [], 0, 0⟩ = ⟨-1, false, [], 0, 0⟩ :=
  ⟨claim_C9_idempotent_lifecycle.1 ⟨5, true, true, true⟩
      ⟨4, true, [], 0, 1⟩ rfl,
   claim_C9_idempotent_lifecycle.2 ⟨-1, false, [], 0, 0⟩ rfl⟩

/-- C10: for a `StreamFrame` in which some plane declares `size > 0` but
its data pointer is null, `sendFrameToClient` writes the 48-byte header
declaring the nonzero sizes, omits the null plane's bytes entirely, and
still reports success — so the transmitted byte count is strictly less
than 48 plus the sum of the declared sizes.  No frame produced by
`convertToStreamFrame` has this shape: there, `size > 0` implies a
non-null owned buffer. -/
theorem claim_C10_null_plane_skipped (f : StreamFrame)
    (hb : f.depth_size < 2 ^ 32 ∧ f.rgb_size < 2 ^ 32 ∧
      f.ir_size < 2 ^ 32)
    (hnull : (0 < f.depth_size ∧ f.depth_data = none) ∨
      (0 < f.rgb_size ∧ f.rgb_data = none) ∨
      (0 < f.ir_size ∧ f.ir_data = none)) :
    field32 (serializeFrame f) 20 = f.depth_size ∧
    field32 (serializeFrame f) 32 = f.rgb_size ∧
    field32 (serializeFrame f) 44 = f.ir_size ∧
    (sendFrameToClient f (sendCallSizes f)).1 = true ∧
    (serializeFrame f).length <
      48 + f.depth_size + f.rgb_size + f.ir_size ∧
    (∀ (alloc : Nat → Bool) (ts : Nat) (raw : RawData) (c : Nat)
        (g : StreamFrame) (c' : Nat),
      convertToStreamFrame alloc ts raw c = .ok (g, c') →
        (0 < g.depth_size → g.depth_data.isSome) ∧
        (0 < g.rgb_size → g.rgb_data.isSome) ∧
        (0 < g.ir_size → g.ir_data.isSome)) := by
  obtain ⟨hbd, hbr, hbi⟩ := hb
  refine ⟨?_, ?_, ?_, sendFrameToClient_perfect f, ?_, ?_⟩
  · rw [serialize_field_depth_size]; exact Nat.mod_eq_of_lt hbd
  · rw [serialize_field_rgb_size]; exact Nat.mod_eq_of_lt hbr
  · rw [serialize_field_ir_size]; exact Nat.mod_eq_of_lt hbi
  · have ld := sentPlaneBytes_length_le f.depth_size f.depth_data
    have lr := sentPlaneBytes_length_le f.rgb_size f.rgb_data
    have li := sentPlaneBytes_length_le f.ir_size f.ir_data
    rcases hnull with ⟨hpos, hnone⟩ | ⟨hpos, hnone⟩ | ⟨hpos, hnone⟩ <;>
      simp only [serializeFrame, List.length_append, headerBytes_length,
        hnone, sentPlaneBytes_none, List.length_nil] <;>
      omega
  · intro alloc ts raw c g c' h
    obtain ⟨-, -, -, hd, hr, hi⟩ :=
      convertToStreamFrame_ok alloc ts raw c g c' h
    refine ⟨?_, ?_, ?_⟩
    · intro hpos
      rcases Nat.eq_zero_or_pos raw.depthImg.size with h0 | h0
      · have := (hd.2 h0).2.2.1; omega
      · rw [(hd.1 h0).2.2.2]; rfl
    · intro hpos
      rcases Nat.eq_zero_or_pos raw.rgbImg.size with h0 | h0
      · have := (hr.2 h0).2.2.1; omega
      · rw [(hr.1 h0).2.2.2]; rfl
    · intro hpos
      rcases Nat.eq_zero_or_pos raw.irImg.size with h0 | h0
      · have := (hi.2 h0).2.2.1; omega
      · rw [(hi.1 h0).2.2.2]; rfl

theorem claim_C10_null_plane_skipped_witness :
    (sendFrameToClient ⟨0, 3, 4, 1, 5, none, 0, 0, 0, none,
        0, 0, 0, none⟩
      (sendCallSizes ⟨0, 3, 4, 1, 5, none, 0, 0, 0, none,
        0, 0, 0, none⟩)).1 = true ∧
    (serializeFrame ⟨0, 3, 4, 1, 5, none, 0, 0, 0, none,
        0, 0, 0, none⟩).length <
      48 + (⟨0, 3, 4, 1, 5, none, 0, 0, 0, none, 0, 0, 0,
        none⟩ : StreamFrame).depth_size +
        (⟨0, 3, 4, 1, 5, none, 0, 0, 0, none, 0, 0, 0,
          none⟩ : StreamFrame).rgb_size +
        (⟨0, 3, 4, 1, 5, none, 0, 0, 0, none, 0, 0, 0,
          none⟩ : StreamFrame).ir_size :=
  ⟨(claim_C10_null_plane_skipped _ (by norm_num)
      (Or.inl ⟨by norm_num, rfl⟩)).2.2.2.1,
   (claim_C10_null_plane_skipped _ (by norm_num)
      (Or.inl ⟨by norm_num, rfl⟩)).2.2.2.2.1⟩

end NuwaStream
